import Mathlib

-- Shallow embedding of the MERN authentication backend:
-- the credential store (models/userModel.js), the credential service
-- (controller/authController.js: register, login), the session middleware
-- (middleware/userAuth.js) and the verification service (verifyAccount,
-- sendVerificationCode, requestPasswordReset, resetPassword — modelled from
-- the spec where the controller source is not in the repository snapshot).
-- Timestamps are epoch milliseconds represented as Nat; the document store
-- is a list of user records; bcrypt and JWT library calls are abstracted by
-- executable functions preserving the properties the service relies on
-- (hash injectivity and compare-against-hash; signature plus expiry check).

namespace MernAuth

-- userSchema of models/userModel.js: name/email/password required,
-- verifyOtp and resetOtp default '', their expiries default 0,
-- isAccountVerified defaults false. `mongoId` stands for the Mongo `_id`.
structure User where
  mongoId : String
  name : String
  email : String
  password : String
  verifyOtp : String
  verifyOtpExpireAt : Nat
  isAccountVerified : Bool
  resetOtp : String
  resetOtpExpireAt : Nat
deriving DecidableEq

-- bcrypt.hash(password, 10) abstracted as an injective tagging function:
-- only hash-comparison is possible against it, never plaintext recovery.
def bcryptHash (password : String) : String :=
  String.mk ('#' :: password.data)

-- bcrypt.compare(password, stored): true exactly when stored is the hash
-- of password.
def bcryptCompare (password stored : String) : Bool :=
  stored = bcryptHash password

-- JWT payload as signed by the controllers: { id: user._id }. The id is
-- optional so that tokens whose payload lacks an id can be expressed
-- (the middleware tests its JavaScript truthiness).
structure JwtPayload where
  id : Option String
deriving DecidableEq

-- A structurally valid signed token: payload, expiry instant, signature
-- (abstracted as the secret the token was signed with).
structure Token where
  payload : JwtPayload
  exp : Nat
  sig : String
deriving DecidableEq

-- A raw bearer value from the cookie: either not even a decodable JWT,
-- or a structurally valid signed token.
inductive RawToken where
  | malformed (raw : String)
  | signed (t : Token)
deriving DecidableEq

-- jwt.sign(payload, secret, { expiresIn }) at instant `now`.
def jwtSign (payload : JwtPayload) (secret : String) (now expiresIn : Nat) : Token :=
  { payload := payload, exp := now + expiresIn, sig := secret }

-- jwt.verify(token, secret): throws (here: none) on malformed input, bad
-- signature, or an expired timestamp; otherwise returns the decoded payload.
def jwtVerify (rt : RawToken) (secret : String) (now : Nat) : Option JwtPayload :=
  match rt with
  | .malformed _ => none
  | .signed t => if t.sig = secret ∧ now < t.exp then some t.payload else none

def sevenDays : Nat := 7 * 24 * 60 * 60 * 1000

-- Session cookie set by register and login:
-- res.cookie("token", token, { httpOnly: true, ..., maxAge: 7*24*60*60*1000 }).
structure Cookie where
  name : String
  token : Token
  httpOnly : Bool
  maxAge : Nat
deriving DecidableEq

-- res.json({ success, message? }) together with any cookie set on the response.
structure JsonResponse where
  success : Bool
  message : Option String
  cookie : Option Cookie
deriving DecidableEq

-- userModel.findOne({ email }): first stored document with that email.
def findOne (db : List User) (email : String) : Option User :=
  db.find? (fun u => u.email == email)

-- userModel.findById(id): first stored document with that id.
def findById (db : List User) (id : String) : Option User :=
  db.find? (fun u => u.mongoId == id)

-- user.save() on a fetched document: the stored document with the same
-- Mongo id is replaced by the updated one.
def saveUser (db : List User) (user : User) : List User :=
  db.map (fun v => if v.mongoId = user.mongoId then user else v)

-- Mongo assigns a fresh `_id` at document creation time.
def freshId (db : List User) : String :=
  "u" ++ toString db.length

-- The document register creates: schema defaults for every field it does
-- not set (new userModel({ name, email, password: hashedPassword })).
def newUser (db : List User) (name email password : String) : User :=
  { mongoId := freshId db, name := name, email := email,
    password := bcryptHash password, verifyOtp := "", verifyOtpExpireAt := 0,
    isAccountVerified := false, resetOtp := "", resetOtpExpireAt := 0 }

-- The token register and login sign for account id `id` at instant `now`.
def issuedToken (id secret : String) (now : Nat) : Token :=
  { payload := { id := some id }, exp := now + sevenDays, sig := secret }

-- The session cookie register and login set.
def issuedCookie (id secret : String) (now : Nat) : Cookie :=
  { name := "token", token := issuedToken id secret now,
    httpOnly := true, maxAge := sevenDays }

-- register of controller/authController.js. A missing body field arrives as
-- falsy; the empty string stands for a missing/empty field.
def register (now : Nat) (secret : String) (db : List User)
    (name email password : String) : JsonResponse × List User :=
  if name = "" ∨ email = "" ∨ password = "" then
    ({ success := false, message := some "Missing Details", cookie := none }, db)
  else
    match findOne db email with
    | some _ =>
        ({ success := false, message := some "User already exists", cookie := none }, db)
    | none =>
        let hashedPassword := bcryptHash password
        let user : User :=
          { mongoId := freshId db, name := name, email := email,
            password := hashedPassword, verifyOtp := "", verifyOtpExpireAt := 0,
            isAccountVerified := false, resetOtp := "", resetOtpExpireAt := 0 }
        let token := jwtSign { id := some user.mongoId } secret now sevenDays
        ({ success := true, message := none,
           cookie := some { name := "token", token := token, httpOnly := true,
                            maxAge := sevenDays } }, db ++ [user])

-- login of controller/authController.js. Read-only on the store.
def login (now : Nat) (secret : String) (db : List User)
    (email password : String) : JsonResponse :=
  if email = "" ∨ password = "" then
    { success := false, message := some "Email and password are required", cookie := none }
  else
    match findOne db email with
    | none => { success := false, message := some "Invalid email", cookie := none }
    | some user =>
        if ! bcryptCompare password user.password then
          { success := false, message := some "Invalid password", cookie := none }
        else
          { success := true, message := none,
            cookie := some { name := "token",
                             token := jwtSign { id := some user.mongoId } secret now sevenDays,
                             httpOnly := true, maxAge := sevenDays } }

-- The request body visible to a downstream handler; userId is the field the
-- middleware writes, otp stands for the rest of the client-supplied body.
structure ReqBody where
  userId : Option String
  otp : String
deriving DecidableEq

-- Outcome of the middleware: either a rejection response was sent (next()
-- never called) or next() ran with the possibly-rewritten body.
inductive AuthOutcome where
  | rejected (message : String)
  | proceed (body : ReqBody)
deriving DecidableEq

def notAuthorizedMsg : String := "Not Authorized, login again"

-- JavaScript truthiness of tokenDecode.id: a present, nonempty string.
def truthy : Option String → Bool
  | none => false
  | some s => s ≠ ""

-- userAuth of middleware/userAuth.js: reads req.cookies.token, verifies it,
-- and on a truthy decoded id writes req.body.userId before calling next().
def userAuth (cookieToken : Option RawToken) (body : ReqBody)
    (secret : String) (now : Nat) : AuthOutcome :=
  match cookieToken with
  | none => .rejected notAuthorizedMsg
  | some rt =>
      match jwtVerify rt secret now with
      | none => .rejected notAuthorizedMsg
      | some payload =>
          if truthy payload.id then
            .proceed { body with userId := payload.id }
          else
            .rejected notAuthorizedMsg

-- A protected route (userRouter.get("/data", userAuth, handler)): the
-- handler runs only when the middleware proceeds.
def runProtected (handler : ReqBody → JsonResponse) (cookieToken : Option RawToken)
    (body : ReqBody) (secret : String) (now : Nat) : JsonResponse :=
  match userAuth cookieToken body secret now with
  | .rejected msg => { success := false, message := some msg, cookie := none }
  | .proceed b => handler b

-- Error taxonomy of the OTP endpoints (spec section 7).
inductive OtpError where
  | validationError
  | notFoundError
  | invalidCodeError
  | expiredCodeError
deriving DecidableEq

/-- Modelled from the spec: the OTP generator used by `sendVerificationCode`
and `requestPasswordReset` (their controller source is not in the repository
snapshot). Per the spec it "generates a 6-digit numeric code (uniformly
random, zero-padded)": the uniformly drawn seed below one million is written
as its six base-10 digits, most significant first, with leading zeros. -/
def genOtp (seed : Fin 1000000) : String :=
  String.mk [Nat.digitChar (seed.val / 100000 % 10), Nat.digitChar (seed.val / 10000 % 10),
             Nat.digitChar (seed.val / 1000 % 10), Nat.digitChar (seed.val / 100 % 10),
             Nat.digitChar (seed.val / 10 % 10), Nat.digitChar (seed.val % 10)]

-- Left inverse of genOtp, reading the six digit characters back.
def decodeOtp (s : String) : Nat :=
  match s.data with
  | [a, b, c, d, e, f] =>
      (a.toNat - 48) * 100000 + (b.toNat - 48) * 10000 + (c.toNat - 48) * 1000 +
        (d.toNat - 48) * 100 + (e.toNat - 48) * 10 + (f.toNat - 48)
  | _ => 0

-- Field updates performed by the verification service on a fetched document.

def withVerifyCode (code : String) (expireAt : Nat) (u : User) : User :=
  { u with verifyOtp := code, verifyOtpExpireAt := expireAt }

def withResetCode (code : String) (expireAt : Nat) (u : User) : User :=
  { u with resetOtp := code, resetOtpExpireAt := expireAt }

def clearVerify (u : User) : User :=
  { u with verifyOtp := "", verifyOtpExpireAt := 0 }

def markVerified (u : User) : User :=
  { u with isAccountVerified := true, verifyOtp := "", verifyOtpExpireAt := 0 }

def clearReset (u : User) : User :=
  { u with resetOtp := "", resetOtpExpireAt := 0 }

def applyReset (newPassword : String) (u : User) : User :=
  { u with password := bcryptHash newPassword, resetOtp := "", resetOtpExpireAt := 0 }

/-- Modelled from the spec: `sendVerificationCode` (controller source not in
the repository snapshot). "Fails if account already verified; otherwise
generates a 6-digit numeric code, stores it with a 24-hour expiry, and
dispatches it via the Notification Sender." Dispatch is external; the
generated code is returned to expose what was stored and sent. -/
def sendVerificationCode (now : Nat) (seed : Fin 1000000) (db : List User)
    (userId : String) : Except OtpError String × List User :=
  match findById db userId with
  | none => (.error .notFoundError, db)
  | some user =>
      if user.isAccountVerified then (.error .validationError, db)
      else
        let code := genOtp seed
        (.ok code, saveUser db (withVerifyCode code (now + 24 * 60 * 60 * 1000) user))

/-- Modelled from the spec: `verifyAccount` (controller source not in the
repository snapshot). "Fails with ValidationError if code empty; fails with
NotFoundError if account missing; fails with InvalidCodeError if stored code
is empty or does not match; fails with ExpiredCodeError if current time
exceeds expiry; on success, marks account verified and clears the
code/expiry." Per the spec's state machine, expiry detection at check time
also clears the code (lazy expiry). -/
def verifyAccount (now : Nat) (db : List User) (userId otp : String) :
    Except OtpError Unit × List User :=
  if otp = "" then (.error .validationError, db)
  else
    match findById db userId with
    | none => (.error .notFoundError, db)
    | some user =>
        if user.verifyOtp = "" ∨ user.verifyOtp ≠ otp then
          (.error .invalidCodeError, db)
        else if user.verifyOtpExpireAt < now then
          (.error .expiredCodeError, saveUser db (clearVerify user))
        else
          (.ok (), saveUser db (markVerified user))

/-- Modelled from the spec: `requestPasswordReset` (controller source not in
the repository snapshot). "Fails with NotFoundError if no matching account;
otherwise generates a 6-digit code, stores it with a 15-minute expiry,
dispatches via Notification Sender." -/
def requestPasswordReset (now : Nat) (seed : Fin 1000000) (db : List User)
    (email : String) : Except OtpError String × List User :=
  match findOne db email with
  | none => (.error .notFoundError, db)
  | some user =>
      let code := genOtp seed
      (.ok code, saveUser db (withResetCode code (now + 15 * 60 * 1000) user))

/-- Modelled from the spec: `resetPassword` (controller source not in the
repository snapshot). "Fails with ValidationError if any field missing; fails
with NotFoundError if no account; fails with InvalidCodeError /
ExpiredCodeError per the same rules as verification; on success, replaces the
stored hash with the hash of newPassword and clears the reset code/expiry." -/
def resetPassword (now : Nat) (db : List User) (email otp newPassword : String) :
    Except OtpError Unit × List User :=
  if email = "" ∨ otp = "" ∨ newPassword = "" then (.error .validationError, db)
  else
    match findOne db email with
    | none => (.error .notFoundError, db)
    | some user =>
        if user.resetOtp = "" ∨ user.resetOtp ≠ otp then
          (.error .invalidCodeError, db)
        else if user.resetOtpExpireAt < now then
          (.error .expiredCodeError, saveUser db (clearReset user))
        else
          (.ok (), saveUser db (applyReset newPassword user))

-- Concrete sample data for witnesses and counterexamples.
def sampleUserA : User :=
  { mongoId := "u0", name := "A", email := "a@x.com", password := bcryptHash "p1",
    verifyOtp := "", verifyOtpExpireAt := 0, isAccountVerified := false,
    resetOtp := "", resetOtpExpireAt := 0 }

def sampleUserPendingVerify : User :=
  { mongoId := "u0", name := "A", email := "a@x.com", password := bcryptHash "p1",
    verifyOtp := "123456", verifyOtpExpireAt := 1000, isAccountVerified := false,
    resetOtp := "", resetOtpExpireAt := 0 }

def sampleUserPendingReset : User :=
  { mongoId := "u0", name := "A", email := "a@x.com", password := bcryptHash "p1",
    verifyOtp := "", verifyOtpExpireAt := 0, isAccountVerified := false,
    resetOtp := "654321", resetOtpExpireAt := 2000 }

def sampleToken : Token := { payload := { id := some "u0" }, exp := 10, sig := "s" }

def sampleBadSigToken : Token := { payload := { id := some "u0" }, exp := 10, sig := "t" }

def sampleExpiredToken : Token := { payload := { id := some "u0" }, exp := 3, sig := "s" }

def sampleNoIdToken : Token := { payload := { id := none }, exp := 10, sig := "s" }

def sampleBody : ReqBody := { userId := some "evil", otp := "x" }

def sampleHandler : ReqBody → JsonResponse :=
  fun b => { success := true, message := b.userId, cookie := none }

-- Helper lemmas about the store.

theorem bcryptHash_injective : Function.Injective bcryptHash := by
  intro a b h
  have hd : ('#' :: a.data) = ('#' :: b.data) := congrArg String.data h
  have hdd : a.data = b.data := by simpa using hd
  cases a; cases b
  exact congrArg String.mk hdd

theorem bcryptCompare_hash_self (p : String) : bcryptCompare p (bcryptHash p) = true := by
  simp [bcryptCompare]

theorem bcryptCompare_hash_ne {p q : String} (h : p ≠ q) :
    bcryptCompare p (bcryptHash q) = false := by
  simp only [bcryptCompare, decide_eq_false_iff_not]
  intro he
  exact h (bcryptHash_injective he.symm)

theorem findOne_eq_some_email {db : List User} {u : User} {e : String}
    (h : findOne db e = some u) : u.email = e := by
  have := List.find?_some h
  simpa using this

theorem findById_eq_some_mongoId {db : List User} {u : User} {i : String}
    (h : findById db i = some u) : u.mongoId = i := by
  have := List.find?_some h
  simpa using this

theorem findById_saveUser {db : List User} {u u' : User} {i : String}
    (h : findById db i = some u) (hid : u'.mongoId = u.mongoId) :
    findById (saveUser db u') i = some u' := by
  have hui : u.mongoId = i := findById_eq_some_mongoId h
  induction db with
  | nil => simp [findById] at h
  | cons v tl ih =>
    by_cases hv : v.mongoId = i
    · have hvu : v = u := by
        have h' := h
        rw [findById, List.find?_cons_of_pos] at h'
        · exact Option.some.inj h'
        · simpa using hv
      subst hvu
      simp only [saveUser, List.map_cons]
      rw [if_pos hid.symm]
      rw [findById, List.find?_cons_of_pos]
      simpa using hid.trans hui
    · have h' : findById tl i = some u := by
        have h2 := h
        rw [findById, List.find?_cons_of_neg] at h2
        · exact h2
        · simpa using hv
      have hne : v.mongoId ≠ u'.mongoId := by
        rw [hid, hui]; exact hv
      simp only [saveUser, List.map_cons, if_neg hne]
      rw [findById, List.find?_cons_of_neg]
      · exact ih h'
      · simpa using hv

theorem findOne_saveUser {db : List User} {u u' : User} {e : String}
    (h : findOne db e = some u) (hid : u'.mongoId = u.mongoId)
    (he : u'.email = e) : findOne (saveUser db u') e = some u' := by
  induction db with
  | nil => simp [findOne] at h
  | cons v tl ih =>
    by_cases hv : v.mongoId = u'.mongoId
    · simp only [saveUser, List.map_cons, if_pos hv]
      rw [findOne, List.find?_cons_of_pos]
      simpa using he
    · simp only [saveUser, List.map_cons, if_neg hv]
      by_cases hm : v.email = e
      · have hvu : v = u := by
          have h' := h
          rw [findOne, List.find?_cons_of_pos] at h'
          · exact Option.some.inj h'
          · simpa using hm
        exact absurd (hvu ▸ hid.symm) hv
      · have h' : findOne tl e = some u := by
          have h2 := h
          rw [findOne, List.find?_cons_of_neg] at h2
          · exact h2
          · simpa using hm
        rw [findOne, List.find?_cons_of_neg]
        · exact ih h'
        · simpa using hm

theorem findOne_append_fresh {db : List User} {u : User} {e : String}
    (h : findOne db e = none) (he : u.email = e) :
    findOne (db ++ [u]) e = some u := by
  induction db with
  | nil =>
    rw [List.nil_append, findOne, List.find?_cons_of_pos]
    simpa using he
  | cons v tl ih =>
    have hv : ¬ v.email = e := by
      have h' := h
      rw [findOne] at h'
      intro hc
      rw [List.find?_cons_of_pos] at h'
      · exact Option.noConfusion h'
      · simpa using hc
    have h' : findOne tl e = none := by
      have h2 := h
      rw [findOne, List.find?_cons_of_neg] at h2
      · exact h2
      · simpa using hv
    rw [List.cons_append, findOne, List.find?_cons_of_neg]
    · exact ih h'
    · simpa using hv

theorem digitChar_isDigit {d : Nat} (h : d < 10) : (Nat.digitChar d).isDigit = true := by
  interval_cases d <;> decide

theorem digitChar_toNat {d : Nat} (h : d < 10) : (Nat.digitChar d).toNat = d + 48 := by
  interval_cases d <;> decide

theorem genOtp_format (seed : Fin 1000000) :
    (genOtp seed).length = 6 ∧ (genOtp seed).data.all Char.isDigit = true := by
  refine ⟨rfl, ?_⟩
  have h10 : ∀ k : Nat, k % 10 < 10 := fun k => Nat.mod_lt _ (by norm_num)
  simp only [genOtp, String.data, List.all_cons, List.all_nil, Bool.and_true,
    digitChar_isDigit (h10 _), Bool.and_self]

theorem decodeOtp_genOtp (seed : Fin 1000000) : decodeOtp (genOtp seed) = seed.val := by
  have h10 : ∀ k : Nat, k % 10 < 10 := fun k => Nat.mod_lt _ (by norm_num)
  have hlt := seed.isLt
  simp only [genOtp, decodeOtp, digitChar_toNat (h10 _)]
  omega

theorem genOtp_injective : Function.Injective genOtp := by
  intro a b h
  have ha := decodeOtp_genOtp a
  have hb := decodeOtp_genOtp b
  rw [h] at ha
  exact Fin.ext (ha.symm.trans hb)

/-- C9: every OTP produced by a successful sendVerificationCode or
requestPasswordReset is a 6-character string of decimal digits (so it matches
the regular expression of six digits, zero-padded), and the generator is
injective on the uniformly drawn seed space of one million values, so the
produced code is uniformly distributed as well. -/
theorem otp_six_digit_zero_padded_uniform :
    (∀ now seed db userId code,
        (sendVerificationCode now seed db userId).1 = Except.ok code →
        code.length = 6 ∧ code.data.all Char.isDigit = true) ∧
    (∀ now seed db email code,
        (requestPasswordReset now seed db email).1 = Except.ok code →
        code.length = 6 ∧ code.data.all Char.isDigit = true) ∧
    Function.Injective genOtp := by
  refine ⟨?_, ?_, genOtp_injective⟩
  · intro now seed db userId code h
    unfold sendVerificationCode at h
    split at h
    · simp at h
    · split at h
      · simp at h
      · simp only [Except.ok.injEq] at h
        exact h ▸ genOtp_format seed
  · intro now seed db email code h
    unfold requestPasswordReset at h
    split at h
    · simp at h
    · simp only [Except.ok.injEq] at h
      exact h ▸ genOtp_format seed

/-- C9 witness: concrete instantiation at seed 70007 over a store holding one
unverified account. -/
theorem otp_six_digit_zero_padded_uniform_witness :
    ((genOtp ⟨70007, by decide⟩).length = 6 ∧
      (genOtp ⟨70007, by decide⟩).data.all Char.isDigit = true) ∧
    (⟨70007, by decide⟩ : Fin 1000000) = ⟨70007, by decide⟩ :=
  ⟨otp_six_digit_zero_padded_uniform.1 0 ⟨70007, by decide⟩ [sampleUserA] "u0"
      (genOtp ⟨70007, by decide⟩) rfl,
   otp_six_digit_zero_padded_uniform.2.2 rfl⟩

-- The account document register creates (with the fresh id Mongo assigns).
theorem register_success {now : Nat} {secret : String} {db : List User}
    {name email password : String}
    (hn : name ≠ "") (he : email ≠ "") (hp : password ≠ "")
    (hf : findOne db email = none) :
    register now secret db name email password =
      ({ success := true, message := none,
         cookie := some (issuedCookie (freshId db) secret now) },
       db ++ [newUser db name email password]) := by
  unfold register
  rw [if_neg (by simp [hn, he, hp])]
  simp only [hf]
  rfl

theorem register_conflict {now : Nat} {secret : String} {db : List User}
    {name email password : String} {u : User}
    (hn : name ≠ "") (he : email ≠ "") (hp : password ≠ "")
    (hf : findOne db email = some u) :
    register now secret db name email password =
      ({ success := false, message := some "User already exists", cookie := none }, db) := by
  unfold register
  rw [if_neg (by simp [hn, he, hp])]
  simp only [hf]

theorem register_success_inv {now : Nat} {secret : String} {db : List User}
    {name email password : String}
    (h : (register now secret db name email password).1.success = true) :
    name ≠ "" ∧ email ≠ "" ∧ password ≠ "" ∧ findOne db email = none := by
  by_cases hval : name = "" ∨ email = "" ∨ password = ""
  · rw [register, if_pos hval] at h
    simp at h
  · push_neg at hval
    rcases hf : findOne db email with _ | u
    · exact ⟨hval.1, hval.2.1, hval.2.2, hf ▸ rfl⟩

    · rw [register, if_neg (by simp [hval.1, hval.2.1, hval.2.2])] at h
      simp only [hf] at h
      simp at h

theorem login_validation {now : Nat} {secret : String} {db : List User}
    {email password : String} (h : email = "" ∨ password = "") :
    login now secret db email password =
      { success := false, message := some "Email and password are required",
        cookie := none } := by
  rw [login, if_pos h]

theorem login_invalid_email {now : Nat} {secret : String} {db : List User}
    {email password : String}
    (he : email ≠ "") (hp : password ≠ "") (hf : findOne db email = none) :
    login now secret db email password =
      { success := false, message := some "Invalid email", cookie := none } := by
  unfold login
  rw [if_neg (by simp [he, hp])]
  simp only [hf]

theorem login_invalid_password {now : Nat} {secret : String} {db : List User}
    {email password : String} {u : User}
    (he : email ≠ "") (hp : password ≠ "") (hf : findOne db email = some u)
    (hc : bcryptCompare password u.password = false) :
    login now secret db email password =
      { success := false, message := some "Invalid password", cookie := none } := by
  unfold login
  rw [if_neg (by simp [he, hp])]
  simp only [hf, hc]
  rfl

theorem login_success {now : Nat} {secret : String} {db : List User}
    {email password : String} {u : User}
    (he : email ≠ "") (hp : password ≠ "") (hf : findOne db email = some u)
    (hc : bcryptCompare password u.password = true) :
    login now secret db email password =
      { success := true, message := none,
        cookie := some (issuedCookie u.mongoId secret now) } := by
  unfold login
  rw [if_neg (by simp [he, hp])]
  simp only [hf, hc]
  rfl

theorem verifyAccount_success {now : Nat} {db : List User} {i otp : String} {u : User}
    (hne : otp ≠ "") (hf : findById db i = some u) (ho : u.verifyOtp = otp)
    (hexp : ¬ u.verifyOtpExpireAt < now) :
    verifyAccount now db i otp = (.ok (), saveUser db (markVerified u)) := by
  unfold verifyAccount
  rw [if_neg hne]
  simp only [hf]
  rw [if_neg (by push_neg; exact ⟨by rw [ho]; exact hne, by rw [ho]⟩)]
  rw [if_neg hexp]

theorem verifyAccount_invalid {now : Nat} {db : List User} {i otp : String} {u : User}
    (hne : otp ≠ "") (hf : findById db i = some u)
    (hbad : u.verifyOtp = "" ∨ u.verifyOtp ≠ otp) :
    verifyAccount now db i otp = (.error .invalidCodeError, db) := by
  unfold verifyAccount
  rw [if_neg hne]
  simp only [hf]
  rw [if_pos hbad]

theorem verifyAccount_expired {now : Nat} {db : List User} {i otp : String} {u : User}
    (hne : otp ≠ "") (hf : findById db i = some u) (ho : u.verifyOtp = otp)
    (hexp : u.verifyOtpExpireAt < now) :
    verifyAccount now db i otp =
      (.error .expiredCodeError, saveUser db (clearVerify u)) := by
  unfold verifyAccount
  rw [if_neg hne]
  simp only [hf]
  rw [if_neg (by push_neg; exact ⟨by rw [ho]; exact hne, by rw [ho]⟩)]
  rw [if_pos hexp]

theorem resetPassword_success {now : Nat} {db : List User} {e otp npw : String} {u : User}
    (he : e ≠ "") (hne : otp ≠ "") (hnp : npw ≠ "")
    (hf : findOne db e = some u) (ho : u.resetOtp = otp)
    (hexp : ¬ u.resetOtpExpireAt < now) :
    resetPassword now db e otp npw = (.ok (), saveUser db (applyReset npw u)) := by
  unfold resetPassword
  rw [if_neg (by simp [he, hne, hnp])]
  simp only [hf]
  rw [if_neg (by push_neg; exact ⟨by rw [ho]; exact hne, by rw [ho]⟩)]
  rw [if_neg hexp]

theorem resetPassword_invalid {now : Nat} {db : List User} {e otp npw : String} {u : User}
    (he : e ≠ "") (hne : otp ≠ "") (hnp : npw ≠ "")
    (hf : findOne db e = some u) (hbad : u.resetOtp = "" ∨ u.resetOtp ≠ otp) :
    resetPassword now db e otp npw = (.error .invalidCodeError, db) := by
  unfold resetPassword
  rw [if_neg (by simp [he, hne, hnp])]
  simp only [hf]
  rw [if_pos hbad]

theorem resetPassword_expired {now : Nat} {db : List User} {e otp npw : String} {u : User}
    (he : e ≠ "") (hne : otp ≠ "") (hnp : npw ≠ "")
    (hf : findOne db e = some u) (ho : u.resetOtp = otp)
    (hexp : u.resetOtpExpireAt < now) :
    resetPassword now db e otp npw =
      (.error .expiredCodeError, saveUser db (clearReset u)) := by
  unfold resetPassword
  rw [if_neg (by simp [he, hne, hnp])]
  simp only [hf]
  rw [if_neg (by push_neg; exact ⟨by rw [ho]; exact hne, by rw [ho]⟩)]
  rw [if_pos hexp]

/-- C1: codes are single-use. A successful verifyAccount or resetPassword
clears the stored code to the empty string and its expiry to zero; detection
of an expired code at check time clears it the same way; consequently
verifyAccount with the correct code before expiry succeeds, and a second call
with the same (now-cleared) code fails with InvalidCodeError. -/
theorem otp_codes_cleared_and_single_use :
    (∀ now db i otp u,
        otp ≠ "" → findById db i = some u → u.verifyOtp = otp →
        ¬ u.verifyOtpExpireAt < now →
        (verifyAccount now db i otp).1 = .ok () ∧
        findById (verifyAccount now db i otp).2 i = some (markVerified u) ∧
        (markVerified u).verifyOtp = "" ∧ (markVerified u).verifyOtpExpireAt = 0 ∧
        ∀ now2, (verifyAccount now2 (verifyAccount now db i otp).2 i otp).1 =
          .error .invalidCodeError) ∧
    (∀ now db e otp npw u,
        e ≠ "" → otp ≠ "" → npw ≠ "" → findOne db e = some u → u.resetOtp = otp →
        ¬ u.resetOtpExpireAt < now →
        (resetPassword now db e otp npw).1 = .ok () ∧
        findOne (resetPassword now db e otp npw).2 e = some (applyReset npw u) ∧
        (applyReset npw u).resetOtp = "" ∧ (applyReset npw u).resetOtpExpireAt = 0 ∧
        ∀ now2, (resetPassword now2 (resetPassword now db e otp npw).2 e otp npw).1 =
          .error .invalidCodeError) ∧
    (∀ now db i otp u,
        otp ≠ "" → findById db i = some u → u.verifyOtp = otp →
        u.verifyOtpExpireAt < now →
        (verifyAccount now db i otp).1 = .error .expiredCodeError ∧
        findById (verifyAccount now db i otp).2 i = some (clearVerify u) ∧
        (clearVerify u).verifyOtp = "" ∧ (clearVerify u).verifyOtpExpireAt = 0) ∧
    (∀ now db e otp npw u,
        e ≠ "" → otp ≠ "" → npw ≠ "" → findOne db e = some u → u.resetOtp = otp →
        u.resetOtpExpireAt < now →
        (resetPassword now db e otp npw).1 = .error .expiredCodeError ∧
        findOne (resetPassword now db e otp npw).2 e = some (clearReset u) ∧
        (clearReset u).resetOtp = "" ∧ (clearReset u).resetOtpExpireAt = 0) := by
  refine ⟨?_, ?_, ?_, ?_⟩
  · intro now db i otp u hne hf ho hexp
    have hs := verifyAccount_success hne hf ho hexp
    have h2 : (verifyAccount now db i otp).2 = saveUser db (markVerified u) := by
      rw [hs]
    have hf2 : findById (saveUser db (markVerified u)) i = some (markVerified u) :=
      findById_saveUser hf rfl
    refine ⟨by rw [hs], by rw [h2]; exact hf2, rfl, rfl, ?_⟩
    intro now2
    rw [h2, verifyAccount_invalid hne hf2 (Or.inl rfl)]
  · intro now db e otp npw u he hne hnp hf ho hexp
    have hue : u.email = e := findOne_eq_some_email hf
    have hs := resetPassword_success he hne hnp hf ho hexp
    have h2 : (resetPassword now db e otp npw).2 = saveUser db (applyReset npw u) := by
      rw [hs]
    have hf2 : findOne (saveUser db (applyReset npw u)) e = some (applyReset npw u) :=
      findOne_saveUser hf rfl hue
    refine ⟨by rw [hs], by rw [h2]; exact hf2, rfl, rfl, ?_⟩
    intro now2
    rw [h2, resetPassword_invalid he hne hnp hf2 (Or.inl rfl)]
  · intro now db i otp u hne hf ho hexp
    have hs := verifyAccount_expired hne hf ho hexp
    have h2 : (verifyAccount now db i otp).2 = saveUser db (clearVerify u) := by
      rw [hs]
    have hf2 : findById (saveUser db (clearVerify u)) i = some (clearVerify u) :=
      findById_saveUser hf rfl
    exact ⟨by rw [hs], by rw [h2]; exact hf2, rfl, rfl⟩
  · intro now db e otp npw u he hne hnp hf ho hexp
    have hue : u.email = e := findOne_eq_some_email hf
    have hs := resetPassword_expired he hne hnp hf ho hexp
    have h2 : (resetPassword now db e otp npw).2 = saveUser db (clearReset u) := by
      rw [hs]
    have hf2 : findOne (saveUser db (clearReset u)) e = some (clearReset u) :=
      findOne_saveUser hf rfl hue
    exact ⟨by rw [hs], by rw [h2]; exact hf2, rfl, rfl⟩

/-- C1 witness: concrete runs over one-account stores, with a pending
verification code "123456" expiring at 1000 and a pending reset code "654321"
expiring at 2000. -/
theorem otp_codes_cleared_and_single_use_witness :
    ((verifyAccount 500 [sampleUserPendingVerify] "u0" "123456").1 = .ok () ∧
     (verifyAccount 9999 (verifyAccount 500 [sampleUserPendingVerify] "u0" "123456").2
        "u0" "123456").1 = .error OtpError.invalidCodeError) ∧
    ((resetPassword 1500 [sampleUserPendingReset] "a@x.com" "654321" "p2").1 = .ok () ∧
     (resetPassword 1500 (resetPassword 1500 [sampleUserPendingReset] "a@x.com" "654321" "p2").2
        "a@x.com" "654321" "p2").1 = .error OtpError.invalidCodeError) ∧
    ((verifyAccount 5000 [sampleUserPendingVerify] "u0" "123456").1 =
        .error OtpError.expiredCodeError ∧
     findById (verifyAccount 5000 [sampleUserPendingVerify] "u0" "123456").2 "u0" =
        some (clearVerify sampleUserPendingVerify)) ∧
    ((resetPassword 9000 [sampleUserPendingReset] "a@x.com" "654321" "p2").1 =
        .error OtpError.expiredCodeError ∧
     findOne (resetPassword 9000 [sampleUserPendingReset] "a@x.com" "654321" "p2").2 "a@x.com" =
        some (clearReset sampleUserPendingReset)) := by
  have h1 := otp_codes_cleared_and_single_use.1 500 [sampleUserPendingVerify] "u0" "123456"
    sampleUserPendingVerify (by decide) rfl rfl (by decide)
  have h2 := otp_codes_cleared_and_single_use.2.1 1500 [sampleUserPendingReset] "a@x.com"
    "654321" "p2" sampleUserPendingReset (by decide) (by decide) (by decide) rfl rfl (by decide)
  have h3 := otp_codes_cleared_and_single_use.2.2.1 5000 [sampleUserPendingVerify] "u0" "123456"
    sampleUserPendingVerify (by decide) rfl rfl (by decide)
  have h4 := otp_codes_cleared_and_single_use.2.2.2 9000 [sampleUserPendingReset] "a@x.com"
    "654321" "p2" sampleUserPendingReset (by decide) (by decide) (by decide) rfl rfl (by decide)
  exact ⟨⟨h1.1, h1.2.2.2.2 9999⟩, ⟨h2.1, h2.2.2.2.2 1500⟩, ⟨h3.1, h3.2.1⟩, ⟨h4.1, h4.2.1⟩⟩

/-- C6: submitting the stored verification code strictly after its expiry
timestamp fails with ExpiredCodeError and leaves the account unverified; the
only state change is the lazy clearing of the code and its expiry, every
other stored field is untouched. -/
theorem verify_after_expiry_fails_leaves_unverified :
    ∀ now db i otp u,
      findById db i = some u → u.verifyOtp = otp → otp ≠ "" →
      u.verifyOtpExpireAt < now → u.isAccountVerified = false →
      (verifyAccount now db i otp).1 = .error .expiredCodeError ∧
      findById (verifyAccount now db i otp).2 i = some (clearVerify u) ∧
      (clearVerify u).isAccountVerified = false ∧
      (clearVerify u).verifyOtp = "" ∧ (clearVerify u).verifyOtpExpireAt = 0 ∧
      (clearVerify u).password = u.password ∧ (clearVerify u).email = u.email ∧
      (clearVerify u).name = u.name ∧ (clearVerify u).resetOtp = u.resetOtp ∧
      (clearVerify u).resetOtpExpireAt = u.resetOtpExpireAt := by
  intro now db i otp u hf ho hne hexp hunv
  have hs := verifyAccount_expired hne hf ho hexp
  have h2 : (verifyAccount now db i otp).2 = saveUser db (clearVerify u) := by rw [hs]
  have hf2 : findById (saveUser db (clearVerify u)) i = some (clearVerify u) :=
    findById_saveUser hf rfl
  exact ⟨by rw [hs], by rw [h2]; exact hf2, by simp [clearVerify, hunv],
         rfl, rfl, rfl, rfl, rfl, rfl, rfl⟩

/-- C6 witness: the pending verification code "123456" expiring at 1000,
submitted at time 5000. -/
theorem verify_after_expiry_fails_leaves_unverified_witness :
    (verifyAccount 5000 [sampleUserPendingVerify] "u0" "123456").1 =
      .error OtpError.expiredCodeError ∧
    findById (verifyAccount 5000 [sampleUserPendingVerify] "u0" "123456").2 "u0" =
      some (clearVerify sampleUserPendingVerify) ∧
    (clearVerify sampleUserPendingVerify).isAccountVerified = false := by
  have h := verify_after_expiry_fails_leaves_unverified 5000 [sampleUserPendingVerify]
    "u0" "123456" sampleUserPendingVerify rfl rfl (by decide) (by decide) rfl
  exact ⟨h.1, h.2.1, h.2.2.1⟩

/-- C5: with a pending, nonempty, unexpired reset code, resetPassword
replaces the stored hash by the hash of the new password and clears the reset
code and expiry, after which login with the old password fails with the
invalid-password failure and login with the new password succeeds. -/
theorem reset_password_changes_login :
    ∀ now t1 t2 secret db e otp oldPw newPw u,
      e ≠ "" → otp ≠ "" → newPw ≠ "" → oldPw ≠ "" → oldPw ≠ newPw →
      findOne db e = some u → u.resetOtp = otp → ¬ u.resetOtpExpireAt < now →
      u.password = bcryptHash oldPw →
      (resetPassword now db e otp newPw).1 = .ok () ∧
      findOne (resetPassword now db e otp newPw).2 e = some (applyReset newPw u) ∧
      (applyReset newPw u).password = bcryptHash newPw ∧
      (applyReset newPw u).resetOtp = "" ∧ (applyReset newPw u).resetOtpExpireAt = 0 ∧
      login t1 secret (resetPassword now db e otp newPw).2 e oldPw =
        { success := false, message := some "Invalid password", cookie := none } ∧
      (login t2 secret (resetPassword now db e otp newPw).2 e newPw).success = true := by
  intro now t1 t2 secret db e otp oldPw newPw u he hno hnn hop hdiff hf ho hexp hpw
  have hue : u.email = e := findOne_eq_some_email hf
  have hs := resetPassword_success he hno hnn hf ho hexp
  have h2 : (resetPassword now db e otp newPw).2 = saveUser db (applyReset newPw u) := by
    rw [hs]
  have hf2 : findOne (saveUser db (applyReset newPw u)) e = some (applyReset newPw u) :=
    findOne_saveUser hf rfl hue
  have hcold : bcryptCompare oldPw (applyReset newPw u).password = false := by
    have : (applyReset newPw u).password = bcryptHash newPw := rfl
    rw [this]
    exact bcryptCompare_hash_ne hdiff
  have hcnew : bcryptCompare newPw (applyReset newPw u).password = true := by
    have : (applyReset newPw u).password = bcryptHash newPw := rfl
    rw [this]
    exact bcryptCompare_hash_self newPw
  refine ⟨by rw [hs], by rw [h2]; exact hf2, rfl, rfl, rfl, ?_, ?_⟩
  · rw [h2, login_invalid_password he hop hf2 hcold]
  · rw [h2, login_success he hnn hf2 hcnew]

/-- C5 witness: the pending reset code "654321" expiring at 2000 is consumed
at time 1500 with new password "p2"; the old password was "p1". -/
theorem reset_password_changes_login_witness :
    (resetPassword 1500 [sampleUserPendingReset] "a@x.com" "654321" "p2").1 = .ok () ∧
    login 0 "s" (resetPassword 1500 [sampleUserPendingReset] "a@x.com" "654321" "p2").2
      "a@x.com" "p1" =
      { success := false, message := some "Invalid password", cookie := none } ∧
    (login 0 "s" (resetPassword 1500 [sampleUserPendingReset] "a@x.com" "654321" "p2").2
      "a@x.com" "p2").success = true := by
  have h := reset_password_changes_login 1500 0 0 "s" [sampleUserPendingReset] "a@x.com"
    "654321" "p1" "p2" sampleUserPendingReset (by decide) (by decide) (by decide)
    (by decide) (by decide) rfl rfl (by decide) rfl
  exact ⟨h.1, h.2.2.2.2.2.1, h.2.2.2.2.2.2⟩

theorem jwtVerify_issuedToken (i s : String) (n : Nat) :
    jwtVerify (RawToken.signed (issuedToken i s n)) s n = some { id := some i } := by
  have hp : n < n + sevenDays := by unfold sevenDays; omega
  simp [jwtVerify, issuedToken, hp]

/-- C2 counterexample: with the account a@x.com already stored, a register
call for the same email but with the name field missing (empty) fails with
the ValidationError message "Missing Details", not with the ConflictError
message "User already exists" — so the claim's unconditional "fails with
ConflictError whenever the email exists" is false; the store is unchanged. -/
theorem register_existing_email_missing_name_counterexample :
    findOne [sampleUserA] "a@x.com" = some sampleUserA ∧
    register 0 "s" [sampleUserA] "" "a@x.com" "p9" =
      ({ success := false, message := some "Missing Details", cookie := none },
       [sampleUserA]) ∧
    (register 0 "s" [sampleUserA] "" "a@x.com" "p9").1.message ≠
      some "User already exists" := by
  refine ⟨rfl, rfl, ?_⟩
  intro h
  simp [register] at h

/-- C2 amended: when all three fields are present (nonempty) and an account
with the given email already exists, register fails with the ConflictError
message "User already exists" and the stored accounts are unchanged; in
particular, after a successful registration a second register call with the
same email (and nonempty fields) fails that way and leaves the store as the
first call left it. -/
theorem register_duplicate_email_conflict :
    (∀ now secret db name email password u,
        name ≠ "" → email ≠ "" → password ≠ "" →
        findOne db email = some u →
        register now secret db name email password =
          ({ success := false, message := some "User already exists", cookie := none },
           db)) ∧
    (∀ now now2 secret secret2 db name email password name2 password2,
        (register now secret db name email password).1.success = true →
        name2 ≠ "" → password2 ≠ "" →
        register now2 secret2 (register now secret db name email password).2
            name2 email password2 =
          ({ success := false, message := some "User already exists", cookie := none },
           (register now secret db name email password).2)) := by
  constructor
  · intro now secret db name email password u hn he hp hf
    exact register_conflict hn he hp hf
  · intro now now2 secret secret2 db name email password name2 password2 h hn2 hp2
    obtain ⟨hn, he, hp, hf⟩ := register_success_inv h
    have hs := @register_success now secret db name email password hn he hp hf
    have h2 : (register now secret db name email password).2 =
        db ++ [newUser db name email password] := by rw [hs]
    have hf2 : findOne (db ++ [newUser db name email password]) email =
        some (newUser db name email password) :=
      findOne_append_fresh hf rfl
    rw [h2, register_conflict hn2 he hp2 hf2]

/-- C2 witness: a direct conflict against a one-account store, and the
register-twice scenario starting from the empty store. -/
theorem register_duplicate_email_conflict_witness :
    register 3 "s" [sampleUserA] "B" "a@x.com" "p2" =
      ({ success := false, message := some "User already exists", cookie := none },
       [sampleUserA]) ∧
    register 1 "s" (register 0 "s" [] "A" "a@x.com" "p1").2 "B" "a@x.com" "p2" =
      ({ success := false, message := some "User already exists", cookie := none },
       (register 0 "s" [] "A" "a@x.com" "p1").2) := by
  constructor
  · exact register_duplicate_email_conflict.1 3 "s" [sampleUserA] "B" "a@x.com" "p2"
      sampleUserA (by decide) (by decide) (by decide) rfl
  · exact register_duplicate_email_conflict.2 0 1 "s" "s" [] "A" "a@x.com" "p1" "B" "p2"
      rfl (by decide) (by decide)

/-- C3 counterexample: the observable failure messages DO distinguish a
nonexistent email from a wrong password — login with a stored email and a
wrong password answers "Invalid password", while login with an unknown email
answers "Invalid email", and the two messages differ. A wrong password that
is empty even fails with the ValidationError message instead of an
AuthError. So the claim's parenthetical indistinguishability is false. -/
theorem login_failure_messages_distinguish_counterexample :
    findOne [sampleUserA] "a@x.com" = some sampleUserA ∧
    bcryptCompare "wrong" sampleUserA.password = false ∧
    login 0 "s" [sampleUserA] "a@x.com" "wrong" =
      { success := false, message := some "Invalid password", cookie := none } ∧
    findOne [sampleUserA] "b@x.com" = none ∧
    login 0 "s" [sampleUserA] "b@x.com" "wrong" =
      { success := false, message := some "Invalid email", cookie := none } ∧
    (login 0 "s" [sampleUserA] "a@x.com" "wrong").message ≠
      (login 0 "s" [sampleUserA] "b@x.com" "wrong").message ∧
    login 0 "s" [sampleUserA] "a@x.com" "" =
      { success := false, message := some "Email and password are required",
        cookie := none } := by
  refine ⟨rfl, by decide, rfl, by decide, rfl, ?_, rfl⟩
  intro h
  simp [login, findOne, sampleUserA, bcryptCompare, bcryptHash] at h

/-- C3 amended: login with a stored email and a nonempty wrong password
always fails with the AuthError message "Invalid password"; login with an
unknown (nonempty) email fails with the AuthError message "Invalid email";
these two failure messages are distinct, so the failure response does reveal
whether the email exists — the per-case message contract of the spec holds,
the cross-case indistinguishability does not. -/
theorem login_wrong_password_fails_messages_distinct :
    (∀ now secret db email password u,
        email ≠ "" → password ≠ "" → findOne db email = some u →
        bcryptCompare password u.password = false →
        login now secret db email password =
          { success := false, message := some "Invalid password", cookie := none }) ∧
    (∀ now secret db email password,
        email ≠ "" → password ≠ "" → findOne db email = none →
        login now secret db email password =
          { success := false, message := some "Invalid email", cookie := none }) ∧
    (some "Invalid password" : Option String) ≠ some "Invalid email" := by
  refine ⟨?_, ?_, by decide⟩
  · intro now secret db email password u he hp hf hc
    exact login_invalid_password he hp hf hc
  · intro now secret db email password he hp hf
    exact login_invalid_email he hp hf

/-- C3 witness: the two failure modes against the one-account store. -/
theorem login_wrong_password_fails_messages_distinct_witness :
    login 7 "s" [sampleUserA] "a@x.com" "wrong" =
      { success := false, message := some "Invalid password", cookie := none } ∧
    login 7 "s" [sampleUserA] "b@x.com" "p1" =
      { success := false, message := some "Invalid email", cookie := none } := by
  constructor
  · exact login_wrong_password_fails_messages_distinct.1 7 "s" [sampleUserA] "a@x.com"
      "wrong" sampleUserA (by decide) (by decide) rfl (by decide)
  · exact login_wrong_password_fails_messages_distinct.2.1 7 "s" [sampleUserA] "b@x.com"
      "p1" (by decide) (by decide) (by decide)

/-- C4: the session middleware rejects (with the authorization-failure
response, not a hard error) every request whose cookie token is absent,
malformed, carries a wrong signature, or is expired, and in those cases no
downstream handler ever runs; when the token verifies and carries an account
id, that decoded id is attached to the request body before the handler
runs. -/
theorem session_middleware_gates_handlers :
    (∀ body secret now handler,
        userAuth none body secret now = .rejected notAuthorizedMsg ∧
        runProtected handler none body secret now =
          { success := false, message := some notAuthorizedMsg, cookie := none }) ∧
    (∀ raw body secret now handler,
        userAuth (some (.malformed raw)) body secret now = .rejected notAuthorizedMsg ∧
        runProtected handler (some (.malformed raw)) body secret now =
          { success := false, message := some notAuthorizedMsg, cookie := none }) ∧
    (∀ t body secret now handler, t.sig ≠ secret →
        userAuth (some (.signed t)) body secret now = .rejected notAuthorizedMsg ∧
        runProtected handler (some (.signed t)) body secret now =
          { success := false, message := some notAuthorizedMsg, cookie := none }) ∧
    (∀ t body secret now handler, t.exp ≤ now →
        userAuth (some (.signed t)) body secret now = .rejected notAuthorizedMsg ∧
        runProtected handler (some (.signed t)) body secret now =
          { success := false, message := some notAuthorizedMsg, cookie := none }) ∧
    (∀ rt body secret now payload handler,
        jwtVerify rt secret now = some payload → truthy payload.id = true →
        userAuth (some rt) body secret now =
          .proceed { body with userId := payload.id } ∧
        runProtected handler (some rt) body secret now =
          handler { body with userId := payload.id }) := by
  refine ⟨?_, ?_, ?_, ?_, ?_⟩
  · intro body secret now handler
    exact ⟨rfl, rfl⟩
  · intro raw body secret now handler
    exact ⟨rfl, rfl⟩
  · intro t body secret now handler ht
    have hv : jwtVerify (RawToken.signed t) secret now = none := by
      simp only [jwtVerify]
      rw [if_neg]
      intro hc
      exact ht hc.1
    constructor
    · simp [userAuth, hv]
    · simp [runProtected, userAuth, hv]
  · intro t body secret now handler ht
    have hv : jwtVerify (RawToken.signed t) secret now = none := by
      simp only [jwtVerify]
      rw [if_neg]
      intro hc
      exact absurd hc.2 (Nat.not_lt.2 ht)
    constructor
    · simp [userAuth, hv]
    · simp [runProtected, userAuth, hv]
  · intro rt body secret now payload handler hv htr
    constructor
    · simp [userAuth, hv, htr]
    · simp [runProtected, userAuth, hv, htr]

/-- C4 witness: a wrong-signature token, an expired token, and a valid token
carrying account id u0 over secret "s" at time 5. -/
theorem session_middleware_gates_handlers_witness :
    (userAuth (some (.signed sampleBadSigToken)) sampleBody "s" 5 =
      .rejected notAuthorizedMsg) ∧
    (userAuth (some (.signed sampleExpiredToken)) sampleBody "s" 5 =
      .rejected notAuthorizedMsg) ∧
    (userAuth (some (.signed sampleToken)) sampleBody "s" 5 =
      .proceed { sampleBody with userId := some "u0" }) ∧
    (runProtected sampleHandler (some (.signed sampleToken)) sampleBody "s" 5 =
      sampleHandler { sampleBody with userId := some "u0" }) := by
  have h3 := (session_middleware_gates_handlers.2.2.1 sampleBadSigToken sampleBody "s" 5
    sampleHandler (by decide)).1
  have h4 := (session_middleware_gates_handlers.2.2.2.1 sampleExpiredToken sampleBody "s" 5
    sampleHandler (by decide)).1
  have h5 := session_middleware_gates_handlers.2.2.2.2 (.signed sampleToken) sampleBody "s" 5
    { id := some "u0" } sampleHandler rfl rfl
  exact ⟨h3, h4, h5.1, h5.2⟩

/-- C10: the middleware overwrites any client-supplied userId — the outcome
never depends on the userId the client put in the body, and on success the
body the handler sees carries exactly the id decoded from the token; a
validly signed, unexpired token whose payload lacks a truthy id (missing or
empty) is rejected as unauthenticated. -/
theorem session_middleware_overwrites_userId :
    (∀ cookieToken body secret now u0,
        userAuth cookieToken { body with userId := u0 } secret now =
          userAuth cookieToken body secret now) ∧
    (∀ rt body secret now payload,
        jwtVerify rt secret now = some payload → truthy payload.id = true →
        userAuth (some rt) body secret now =
          .proceed { body with userId := payload.id }) ∧
    (∀ rt body secret now payload,
        jwtVerify rt secret now = some payload → truthy payload.id = false →
        userAuth (some rt) body secret now = .rejected notAuthorizedMsg) := by
  refine ⟨?_, ?_, ?_⟩
  · intro cookieToken body secret now u0
    cases cookieToken with
    | none => rfl
    | some rt =>
      cases hv : jwtVerify rt secret now with
      | none => simp [userAuth, hv]
      | some payload =>
        cases htr : truthy payload.id with
        | false => simp [userAuth, hv, htr]
        | true => simp [userAuth, hv, htr]
  · intro rt body secret now payload hv htr
    simp [userAuth, hv, htr]
  · intro rt body secret now payload hv htr
    simp [userAuth, hv, htr]

/-- C10 witness: the valid token for id u0 overrides the client-supplied
userId "evil"; the validly signed token with no id field is rejected. -/
theorem session_middleware_overwrites_userId_witness :
    userAuth (some (.signed sampleToken)) sampleBody "s" 5 =
      .proceed { sampleBody with userId := some "u0" } ∧
    userAuth (some (.signed sampleNoIdToken)) sampleBody "s" 5 =
      .rejected notAuthorizedMsg ∧
    userAuth (some (.signed sampleToken)) { sampleBody with userId := some "other" } "s" 5 =
      userAuth (some (.signed sampleToken)) sampleBody "s" 5 := by
  refine ⟨?_, ?_, ?_⟩
  · exact session_middleware_overwrites_userId.2.1 (.signed sampleToken) sampleBody "s" 5
      { id := some "u0" } rfl rfl
  · exact session_middleware_overwrites_userId.2.2 (.signed sampleNoIdToken) sampleBody "s" 5
      { id := none } rfl rfl
  · exact session_middleware_overwrites_userId.1 (some (.signed sampleToken)) sampleBody
      "s" 5 (some "other")

/-- C7: the token register signs at registration and the token login signs on
a later login for the same account carry the same account id (the decoded
payloads are identical) and both carry the same 7-day expiry window measured
from their issue instants; both verify to that shared payload. -/
theorem register_login_tokens_agree :
    ∀ t1 t2 secret db name email password,
      name ≠ "" → email ≠ "" → password ≠ "" → findOne db email = none →
      (register t1 secret db name email password).1.cookie =
        some (issuedCookie (freshId db) secret t1) ∧
      login t2 secret (register t1 secret db name email password).2 email password =
        { success := true, message := none,
          cookie := some (issuedCookie (freshId db) secret t2) } ∧
      (issuedToken (freshId db) secret t1).payload =
        (issuedToken (freshId db) secret t2).payload ∧
      (issuedToken (freshId db) secret t1).payload.id = some (freshId db) ∧
      (issuedToken (freshId db) secret t1).exp = t1 + sevenDays ∧
      (issuedToken (freshId db) secret t2).exp = t2 + sevenDays ∧
      jwtVerify (RawToken.signed (issuedToken (freshId db) secret t1)) secret t1 =
        some { id := some (freshId db) } ∧
      jwtVerify (RawToken.signed (issuedToken (freshId db) secret t2)) secret t2 =
        some { id := some (freshId db) } := by
  intro t1 t2 secret db name email password hn he hp hf
  have hs := @register_success t1 secret db name email password hn he hp hf
  have h2 : (register t1 secret db name email password).2 =
      db ++ [newUser db name email password] := by rw [hs]
  have hf2 : findOne (db ++ [newUser db name email password]) email =
      some (newUser db name email password) :=
    findOne_append_fresh hf rfl
  have hcmp : bcryptCompare password (newUser db name email password).password = true :=
    bcryptCompare_hash_self password
  have hl := @login_success t2 secret (db ++ [newUser db name email password]) email
    password (newUser db name email password) he hp hf2 hcmp
  refine ⟨by rw [hs], ?_, rfl, rfl, rfl, rfl,
          jwtVerify_issuedToken (freshId db) secret t1,
          jwtVerify_issuedToken (freshId db) secret t2⟩
  rw [h2]
  exact hl

/-- C7 witness: registration into the empty store at time 100 and a login at
time 200, secret "s". -/
theorem register_login_tokens_agree_witness :
    (register 100 "s" [] "A" "a@x.com" "p1").1.cookie =
      some (issuedCookie (freshId []) "s" 100) ∧
    login 200 "s" (register 100 "s" [] "A" "a@x.com" "p1").2 "a@x.com" "p1" =
      { success := true, message := none,
        cookie := some (issuedCookie (freshId []) "s" 200) } ∧
    (issuedToken (freshId []) "s" 100).payload =
      (issuedToken (freshId []) "s" 200).payload ∧
    (issuedToken (freshId []) "s" 100).exp = 100 + sevenDays ∧
    (issuedToken (freshId []) "s" 200).exp = 200 + sevenDays := by
  have h := register_login_tokens_agree 100 200 "s" [] "A" "a@x.com" "p1"
    (by decide) (by decide) (by decide) rfl
  exact ⟨h.1, h.2.1, h.2.2.1, h.2.2.2.2.1, h.2.2.2.2.2.1⟩

/-- C8: for a fresh email and all three fields present, register appends an
account that is unverified, has empty verification and reset codes and zero
expiry timestamps, stores only the hash of the password, and sets an
HTTP-only session cookie whose lifetime is 7 days in milliseconds. -/
theorem register_creates_default_account_and_cookie :
    ∀ now secret db name email password,
      name ≠ "" → email ≠ "" → password ≠ "" → findOne db email = none →
      (register now secret db name email password).2 =
        db ++ [newUser db name email password] ∧
      (newUser db name email password).isAccountVerified = false ∧
      (newUser db name email password).verifyOtp = "" ∧
      (newUser db name email password).verifyOtpExpireAt = 0 ∧
      (newUser db name email password).resetOtp = "" ∧
      (newUser db name email password).resetOtpExpireAt = 0 ∧
      (newUser db name email password).password = bcryptHash password ∧
      (register now secret db name email password).1.success = true ∧
      (register now secret db name email password).1.cookie =
        some (issuedCookie (freshId db) secret now) ∧
      (issuedCookie (freshId db) secret now).httpOnly = true ∧
      (issuedCookie (freshId db) secret now).maxAge = 7 * 24 * 60 * 60 * 1000 := by
  intro now secret db name email password hn he hp hf
  have hs := @register_success now secret db name email password hn he hp hf
  exact ⟨by rw [hs], rfl, rfl, rfl, rfl, rfl, rfl, by rw [hs], by rw [hs], rfl, rfl⟩

/-- C8 witness: registration of account A into the empty store at time 0. -/
theorem register_creates_default_account_and_cookie_witness :
    (register 0 "s" [] "A" "a@x.com" "p1").2 = [newUser [] "A" "a@x.com" "p1"] ∧
    (newUser [] "A" "a@x.com" "p1").isAccountVerified = false ∧
    (newUser [] "A" "a@x.com" "p1").verifyOtp = "" ∧
    (newUser [] "A" "a@x.com" "p1").verifyOtpExpireAt = 0 ∧
    (newUser [] "A" "a@x.com" "p1").resetOtp = "" ∧
    (newUser [] "A" "a@x.com" "p1").resetOtpExpireAt = 0 ∧
    (register 0 "s" [] "A" "a@x.com" "p1").1.cookie =
      some (issuedCookie (freshId []) "s" 0) ∧
    (issuedCookie (freshId []) "s" 0).httpOnly = true ∧
    (issuedCookie (freshId []) "s" 0).maxAge = 7 * 24 * 60 * 60 * 1000 := by
  have h := register_creates_default_account_and_cookie 0 "s" [] "A" "a@x.com" "p1"
    (by decide) (by decide) (by decide) rfl
  exact ⟨h.1, h.2.1, h.2.2.1, h.2.2.2.1, h.2.2.2.2.1, h.2.2.2.2.2.1,
         h.2.2.2.2.2.2.2.2.1, h.2.2.2.2.2.2.2.2.2.1, h.2.2.2.2.2.2.2.2.2.2⟩

end MernAuth
